import Mathlib

/-!
Sensors 2.0 default HAL: the dispatcher of `Sensors.cpp` over the workers of `Sensor.h`

A shallow embedding of `sensors/2.0/default/Sensors.cpp`.  The dispatcher object is a
record of its member variables; every method is a function from the record (and the
arguments) to the returned value and the new record.  Three observation fields are carried
along with the members: the calls made on workers, the number of `EventFlag` objects that
exist, and the masks passed to `EventFlag::wake`.

The message queues and the event flag come from the fast-message-queue library; they are
embedded by their interface contract (`MessageQueue.write`, `MessageQueue.read`,
`EventFlag.createEventFlag`, `EventFlag.deleteEventFlag`).
-/

/-! ## Interface types -/

/-- Modelled from the spec: the `Result` enumeration of the generated `sensors/1.0/types.h`,
which is not among the sources.  Section 6 of the spec gives its values as
OK, BAD_VALUE, INVALID_OPERATION. -/
inductive Result where
  | OK
  | BAD_VALUE
  | INVALID_OPERATION
  deriving DecidableEq, Repr

/-- Modelled from the spec: the underlying `int32_t` of each enumerator of `Result`.  The
enumerators are those of the spec; the numbers are the ones of the interface definition
(`OK` is the zero value, the others are negated errno codes). -/
def Result.toInt32 : Result → Int
  | Result.OK => 0
  | Result.BAD_VALUE => -22
  | Result.INVALID_OPERATION => -38

/-- The expression `Result{}` of `Sensors.cpp` (lines 59 and 125): value-initialisation of an
enumeration yields the value whose underlying integer is zero. -/
def Result.valueInit : Result := Result.OK

/-- Modelled from the spec: `SensorInfo` (section 3); only the handle is read by the
dispatcher (`Sensors.cpp` line 37). -/
structure SensorInfo where
  sensorHandle : Int
  deriving DecidableEq, Repr

/-- Modelled from the spec: `Event` (section 3): timestamp, sensor handle, sensor type tag
and payload. -/
structure Event where
  timestamp : Int
  sensorHandle : Int
  sensorType : Int
  u : List Int
  deriving DecidableEq, Repr

/-- Conversion of an integer to `int32_t` (two's complement wrap-around), as performed when
an `int64_t` argument is passed to an `int32_t` parameter. -/
def toInt32 (x : Int) : Int := (x + 2147483648) % 4294967296 - 2147483648

/-! ## The worker (`Sensor.h`) -/

/-- The data members of `class Sensor` (`Sensor.h` lines 59-64) that carry worker state. -/
structure Sensor where
  mIsEnabled : Bool
  mSamplingPeriodNs : Int
  mLastSampleTimeNs : Int
  mSensorInfo : SensorInfo
  mStopThread : Bool
  deriving DecidableEq, Repr

/-- The three control methods declared in `Sensor.h` (lines 50-52).  Their bodies live in
`Sensor.cpp`, which is not among the sources, so the dispatcher is embedded over an arbitrary
implementation of them.  `batch` takes an `int32_t` (line 50). -/
structure SensorImpl where
  batch : Int → Sensor → Sensor
  activate : Bool → Sensor → Sensor
  flush : Sensor → Result × Sensor

/-- Modelled from the spec: `getSensorInfo` (section 4.1, `getInfo()`): returns the static
SensorInfo, no side effects. -/
def Sensor.getSensorInfo (w : Sensor) : SensorInfo := w.mSensorInfo

/-- Modelled from the spec: the constructor `AccelSensor(sensorHandle, callback)` declared at
`Sensor.h` line 73: a disabled worker whose SensorInfo carries the given handle. -/
def AccelSensor (sensorHandle : Int) : Sensor where
  mIsEnabled := false
  mSamplingPeriodNs := 0
  mLastSampleTimeNs := 0
  mSensorInfo := { sensorHandle := sensorHandle }
  mStopThread := false

/-- Modelled from the spec: a worker implementation following section 4.1: `activate` records
the enable flag, `batch` records the period, `flush` on a continuous sensor reports
"not supported".  Used to evaluate the dispatcher on concrete inputs. -/
def specSensorImpl : SensorImpl where
  batch := fun p w => { w with mSamplingPeriodNs := p }
  activate := fun e w => { w with mIsEnabled := e }
  flush := fun w => (Result.INVALID_OPERATION, w)

/-- A call received by a worker, with the argument as the worker receives it. -/
inductive SensorCall where
  | activate (enable : Bool)
  | batch (samplingPeriodNs : Int)
  | flush
  deriving DecidableEq, Repr

/-! ## The registry `std::map<int32_t, std::shared_ptr<Sensor>>` -/

/-- The member function `find` of the map: the worker stored under `key`, if any. -/
def SensorMap.find : List (Int × Sensor) → Int → Option Sensor
  | [], _ => none
  | (k, w) :: rest, key => if k = key then some w else SensorMap.find rest key

/-- Assignment through `operator[]` (line 37) and write-back of a worker mutated through its
`shared_ptr`: replaces the value under `key`, or inserts it in key order. -/
def SensorMap.store : List (Int × Sensor) → Int → Sensor → List (Int × Sensor)
  | [], key, w => [(key, w)]
  | (k, v) :: rest, key, w =>
    if k = key then (k, w) :: rest
    else if key < k then (key, w) :: (k, v) :: rest
    else (k, v) :: SensorMap.store rest key w

/-! ## The fast message queue and the event flag (library contract) -/

/-- What a queue descriptor determines about the queue mapped from it: whether the mapping
yields a valid queue, its capacity in items, and the address of its event flag word, if the
descriptor grants one. -/
structure MQDescriptor where
  valid : Bool
  quantumCount : Nat
  evFlagWord : Option Nat
  deriving DecidableEq, Repr

/-- A message queue object.  `items` are the items written and not yet read, oldest first.
Construction always yields an object; a failed construction is reported by `isValid`. -/
structure MessageQueue (T : Type) where
  isValid : Bool
  quantumCount : Nat
  items : List T
  evFlagWord : Option Nat
  deriving DecidableEq, Repr

/-- The constructor `MessageQueue(descriptor, true /* resetPointers */)`: with the read and
write positions reset, nothing is readable. -/
def MessageQueue.create {T : Type} (desc : MQDescriptor) : MessageQueue T where
  isValid := desc.valid
  quantumCount := desc.quantumCount
  items := []
  evFlagWord := desc.evFlagWord

def MessageQueue.getEventFlagWord {T : Type} (q : MessageQueue T) : Option Nat := q.evFlagWord

def MessageQueue.availableToRead {T : Type} (q : MessageQueue T) : Nat := q.items.length

def MessageQueue.availableToWrite {T : Type} (q : MessageQueue T) : Nat :=
  q.quantumCount - q.items.length

/-- The call `write(data, count)`: all of `data` is appended when it fits in the free space,
otherwise nothing is written and `false` is returned. -/
def MessageQueue.write {T : Type} (q : MessageQueue T) (data : List T) :
    Bool × MessageQueue T :=
  if q.isValid && decide (data.length ≤ q.availableToWrite) then
    (true, { q with items := q.items ++ data })
  else (false, q)

/-- The call `read(data, count)`: the `count` oldest items are removed and returned when that
many are readable, otherwise nothing is read and `false` is returned. -/
def MessageQueue.read {T : Type} (q : MessageQueue T) (count : Nat) :
    Bool × List T × MessageQueue T :=
  if q.isValid && decide (count ≤ q.availableToRead) then
    (true, q.items.take count, { q with items := q.items.drop count })
  else (false, [], q)

/-- The type `status_t` with the codes the event flag functions return. -/
inductive status_t where
  | OK
  | BAD_VALUE
  | NO_MEMORY
  deriving DecidableEq, Repr

/-- An `EventFlag` object, bound to the flag word at address `word`. -/
structure EventFlag where
  word : Nat
  deriving DecidableEq, Repr

/-- The static `EventFlag::createEventFlag(fwAddr, &flag)`: returns the status, the new value
of `flag` and the new number of existing `EventFlag` objects.  `flag` is cleared first; an
object is created, and stored in `flag`, only for a non-null word address and when the
allocation succeeds (`allocOk`). -/
def EventFlag.createEventFlag (allocOk : Bool) (fwAddr : Option Nat) (live : Nat) :
    status_t × Option EventFlag × Nat :=
  if allocOk then
    match fwAddr with
    | some a => (status_t.OK, some { word := a }, live + 1)
    | none => (status_t.BAD_VALUE, none, live)
  else (status_t.NO_MEMORY, none, live)

/-- The static `EventFlag::deleteEventFlag(&flag)`: a null `flag` is a BAD_VALUE; otherwise the
object is deleted and `flag` is set to null. -/
def EventFlag.deleteEventFlag (flag : Option EventFlag) (live : Nat) :
    status_t × Option EventFlag × Nat :=
  match flag with
  | some _ => (status_t.OK, none, live - 1)
  | none => (status_t.BAD_VALUE, none, live)

/-- The consumer handle `sp<ISensorsCallback>`, when not null. -/
structure ISensorsCallback where
  id : Nat
  deriving DecidableEq, Repr

/-- Modelled from the spec: `EventQueueFlagBits::READ_AND_PROCESS` of the generated
`sensors/2.0/types.h`: the wake signal bit meaning "events are ready to read" (section 6). -/
def READ_AND_PROCESS : Nat := 1

/-! ## The dispatcher (`Sensors.cpp`) -/

/-- The member variables of `class Sensors`, followed by three observation fields:
`sensorCalls` lists the calls made on workers (handle of the worker, call), `liveEventFlags`
counts the `EventFlag` objects created and not yet deleted, and `wakes` lists the masks
passed to `EventFlag::wake`. -/
structure Sensors where
  mSensors : List (Int × Sensor)
  mCallback : Option ISensorsCallback
  mEventQueue : Option (MessageQueue Event)
  mWakeLockQueue : Option (MessageQueue Nat)
  mEventQueueFlag : Option EventFlag
  sensorCalls : List (Int × SensorCall)
  liveEventFlags : Nat
  wakes : List Nat
  deriving DecidableEq, Repr

/-- The constructor `Sensors::Sensors()` (lines 34-38): a null event flag and one
accelerometer worker, built with handle 1 and stored under the handle of its SensorInfo. -/
def Sensors.new : Sensors :=
  let accel := AccelSensor 1
  { mSensors := SensorMap.store [] accel.getSensorInfo.sensorHandle accel
    mCallback := none
    mEventQueue := none
    mWakeLockQueue := none
    mEventQueueFlag := none
    sensorCalls := []
    liveEventFlags := 0
    wakes := [] }

/-- The method `Sensors::deleteEventFlag()` (lines 155-160): the status is only logged. -/
def Sensors.deleteEventFlag (s : Sensors) : Sensors :=
  let r := EventFlag.deleteEventFlag s.mEventQueueFlag s.liveEventFlags
  { s with mEventQueueFlag := r.2.1, liveEventFlags := r.2.2 }

/-- The destructor `Sensors::~Sensors()` (lines 40-42). -/
def Sensors.destructor (s : Sensors) : Sensors := Sensors.deleteEventFlag s

/-- The method `Sensors::setOperationMode` (lines 57-60). -/
def Sensors.setOperationMode (s : Sensors) (_mode : Int) : Result × Sensors :=
  (Result.valueInit, s)

/-- The method `Sensors::activate` (lines 62-69). -/
def Sensors.activate (impl : SensorImpl) (s : Sensors) (sensorHandle : Int) (enabled : Bool) :
    Result × Sensors :=
  match SensorMap.find s.mSensors sensorHandle with
  | some sensor =>
    (Result.OK,
      { s with
        mSensors := SensorMap.store s.mSensors sensorHandle (impl.activate enabled sensor)
        sensorCalls := s.sensorCalls ++ [(sensorHandle, SensorCall.activate enabled)] })
  | none => (Result.BAD_VALUE, s)

/-- The method `Sensors::batch` (lines 105-113).  The `int64_t` period is passed to
`Sensor::batch(int32_t)`, hence converted to `int32_t` at the call. -/
def Sensors.batch (impl : SensorImpl) (s : Sensors) (sensorHandle : Int)
    (samplingPeriodNs : Int) (_maxReportLatencyNs : Int) : Result × Sensors :=
  match SensorMap.find s.mSensors sensorHandle with
  | some sensor =>
    (Result.OK,
      { s with
        mSensors :=
          SensorMap.store s.mSensors sensorHandle (impl.batch (toInt32 samplingPeriodNs) sensor)
        sensorCalls :=
          s.sensorCalls ++ [(sensorHandle, SensorCall.batch (toInt32 samplingPeriodNs))] })
  | none => (Result.BAD_VALUE, s)

/-- The method `Sensors::flush` (lines 115-121). -/
def Sensors.flush (impl : SensorImpl) (s : Sensors) (sensorHandle : Int) : Result × Sensors :=
  match SensorMap.find s.mSensors sensorHandle with
  | some sensor =>
    ((impl.flush sensor).1,
      { s with
        mSensors := SensorMap.store s.mSensors sensorHandle (impl.flush sensor).2
        sensorCalls := s.sensorCalls ++ [(sensorHandle, SensorCall.flush)] })
  | none => (Result.BAD_VALUE, s)

/-- The method `Sensors::injectSensorData` (lines 123-126). -/
def Sensors.injectSensorData (s : Sensors) (_event : Event) : Result × Sensors :=
  (Result.valueInit, s)

/-- The method `Sensors::registerDirectChannel` (lines 128-132): the pair is what the
callback `_hidl_cb` receives (result, channel handle). -/
def Sensors.registerDirectChannel (s : Sensors) (_mem : Nat) : (Result × Int) × Sensors :=
  ((Result.INVALID_OPERATION, 0), s)

/-- The method `Sensors::unregisterDirectChannel` (lines 134-136). -/
def Sensors.unregisterDirectChannel (s : Sensors) (_channelHandle : Int) : Result × Sensors :=
  (Result.INVALID_OPERATION, s)

/-- The method `Sensors::configDirectReport` (lines 138-142): the pair is what the callback
`_hidl_cb` receives (result, report token). -/
def Sensors.configDirectReport (s : Sensors) (_sensorHandle _channelHandle : Int)
    (_rate : Int) : (Result × Int) × Sensors :=
  ((Result.INVALID_OPERATION, 0), s)

/-- The states the dispatcher passes through during one `initialize` call, one per
statement, and the returned result. -/
structure InitializeRun where
  afterCallback : Sensors
  afterEventQueue : Sensors
  afterDelete : Sensors
  afterCreate : Sensors
  afterWakeLockQueue : Sensors
  result : Result
  deriving DecidableEq, Repr

/-- The body of `Sensors::initialize` (lines 71-103), statement by statement.  `allocOk` tells
whether the allocation inside `createEventFlag` succeeds. -/
def Sensors.initializeRun (s : Sensors) (eventQueueDescriptor wakeLockDescriptor : MQDescriptor)
    (sensorsCallback : Option ISensorsCallback) (allocOk : Bool) : InitializeRun :=
  let result := Result.OK
  -- line 78
  let s1 := { s with mCallback := sensorsCallback }
  -- lines 81-82
  let eventQueue : MessageQueue Event := MessageQueue.create eventQueueDescriptor
  let s2 := { s1 with mEventQueue := some eventQueue }
  -- line 85
  let s3 := Sensors.deleteEventFlag s2
  -- lines 89-91
  let created :=
    EventFlag.createEventFlag allocOk eventQueue.getEventFlagWord s3.liveEventFlags
  let s4 := { s3 with mEventQueueFlag := created.2.1, liveEventFlags := created.2.2 }
  let result := if created.1 ≠ status_t.OK then Result.BAD_VALUE else result
  -- lines 95-96
  let s5 := { s4 with mWakeLockQueue := some (MessageQueue.create wakeLockDescriptor) }
  -- lines 98-100
  let result :=
    if s5.mCallback.isNone || s5.mEventQueue.isNone || s5.mWakeLockQueue.isNone
        || s5.mEventQueueFlag.isNone then Result.BAD_VALUE
    else result
  { afterCallback := s1, afterEventQueue := s2, afterDelete := s3, afterCreate := s4,
    afterWakeLockQueue := s5, result := result }

/-- The method `Sensors::initialize` (lines 71-103): the returned result and the dispatcher
after the call. -/
def Sensors.initialize (s : Sensors) (eventQueueDescriptor wakeLockDescriptor : MQDescriptor)
    (sensorsCallback : Option ISensorsCallback) (allocOk : Bool) : Result × Sensors :=
  let run := Sensors.initializeRun s eventQueueDescriptor wakeLockDescriptor sensorsCallback
    allocOk
  (run.result, run.afterWakeLockQueue)

/-- What one `postEvents` call does: the length of the buffer `tmp` (line 148), the count
passed to `read` (line 149), the value returned by `write` (line 151, not looked at by the
code), and the dispatcher after the call. -/
structure PostEventsRun where
  tmpSize : Nat
  readCount : Nat
  writeOk : Bool
  final : Sensors
  deriving DecidableEq, Repr

/-- The body of `Sensors::postEvents` (lines 144-153).  The three members are dereferenced
without a check, so the call is undefined (`none`) when one of them is null.  The wake-lock
queue is written by the consumer, which does not take `mLock`: `arriving` are the credits
the consumer writes between the two evaluations of `availableToRead()` at lines 148 and 149
(`[]` when the call runs without interference). -/
def Sensors.postEventsRun (s : Sensors) (events : List Event) (arriving : List Nat) :
    Option PostEventsRun :=
  match s.mWakeLockQueue, s.mEventQueue, s.mEventQueueFlag with
  | some wakeLockQueue, some eventQueue, some _ =>
    -- line 148
    let tmpSize := wakeLockQueue.availableToRead
    let wakeLockQueue := (wakeLockQueue.write arriving).2
    -- line 149
    let readCount := wakeLockQueue.availableToRead
    let wakeLockQueue := (wakeLockQueue.read readCount).2.2
    -- line 151
    let written := eventQueue.write events
    -- line 152
    some
      { tmpSize := tmpSize
        readCount := readCount
        writeOk := written.1
        final :=
          { s with
            mWakeLockQueue := some wakeLockQueue
            mEventQueue := some written.2
            wakes := s.wakes ++ [READ_AND_PROCESS] } }
  | _, _, _ => none

/-- The method `Sensors::postEvents` (lines 144-153): the dispatcher after the call.  Reading
more items than `tmp` holds writes past the end of the buffer, which is undefined (`none`). -/
def Sensors.postEvents (s : Sensors) (events : List Event) (arriving : List Nat) :
    Option Sensors :=
  match Sensors.postEventsRun s events arriving with
  | some run => if run.readCount ≤ run.tmpSize then some run.final else none
  | none => none

/-- An initialized dispatcher: the consumer handle, both queues and the event flag are
held, and both queues are valid. -/
def Sensors.initialized (s : Sensors) : Bool :=
  match s.mCallback, s.mEventQueue, s.mWakeLockQueue, s.mEventQueueFlag with
  | some _, some eventQueue, some wakeLockQueue, some _ =>
    eventQueue.isValid && wakeLockQueue.isValid
  | _, _, _, _ => false

/-- The events held by the event queue (none when there is no queue). -/
def Sensors.eventItems (s : Sensors) : List Event :=
  match s.mEventQueue with
  | some eventQueue => eventQueue.items
  | none => []

/-- The credits readable in the wake-lock queue (none when there is no queue). -/
def Sensors.creditItems (s : Sensors) : List Nat :=
  match s.mWakeLockQueue with
  | some wakeLockQueue => wakeLockQueue.items
  | none => []

/-- Whether a batch does not exceed the free space of the event queue. -/
def Sensors.fits (s : Sensors) (events : List Event) : Bool :=
  match s.mEventQueue with
  | some eventQueue => decide (events.length ≤ eventQueue.availableToWrite)
  | none => false

/-- A sequence of `postEvents` calls, one batch each, every call one atomic step, in the order
in which the calls take `mLock`. -/
def Sensors.postEventsSeq : Sensors → List (List Event) → Option Sensors
  | s, [] => some s
  | s, events :: rest =>
    match Sensors.postEvents s events [] with
    | some s1 => Sensors.postEventsSeq s1 rest
    | none => none

/-- Every batch of the sequence fits the free space of the event queue at the time of its
call. -/
def Sensors.allFit : Sensors → List (List Event) → Bool
  | _, [] => true
  | s, events :: rest =>
    Sensors.fits s events &&
      match Sensors.postEvents s events [] with
      | some s1 => Sensors.allFit s1 rest
      | none => false

/-- The arguments of one `initialize` call. -/
structure InitializeArgs where
  eventQueueDescriptor : MQDescriptor
  wakeLockDescriptor : MQDescriptor
  sensorsCallback : Option ISensorsCallback
  allocOk : Bool
  deriving DecidableEq, Repr

/-- The dispatcher after a sequence of `initialize` calls. -/
def Sensors.initializeSeq : Sensors → List InitializeArgs → Sensors
  | s, [] => s
  | s, a :: rest =>
    Sensors.initializeSeq
      ( Sensors.initialize s a.eventQueueDescriptor a.wakeLockDescriptor a.sensorsCallback
        a.allocOk).2 rest

/-- Every state the dispatcher passes through during a sequence of `initialize` calls: the
state before each call, the states inside it, and the state after the last call. -/
def Sensors.initializeSeqStates : Sensors → List InitializeArgs → List Sensors
  | s, [] => [s]
  | s, a :: rest =>
    let run := Sensors.initializeRun s a.eventQueueDescriptor a.wakeLockDescriptor
      a.sensorsCallback a.allocOk
    s :: run.afterCallback :: run.afterEventQueue :: run.afterDelete :: run.afterCreate ::
      Sensors.initializeSeqStates run.afterWakeLockQueue rest

/-- One step of the flow between dispatcher and consumer: a `postEvents` call (atomic), the
consumer writing credits into the wake-lock queue, or the consumer reading `count` events
from the event queue. -/
inductive FlowStep where
  | post (events : List Event)
  | credit (tokens : List Nat)
  | consume (count : Nat)
  deriving DecidableEq, Repr

/-- The dispatcher together with two counters: the acknowledgment-requiring events written
into the event queue so far, and the credits issued by the consumer so far. -/
structure CreditFlow where
  hal : Sensors
  wakeUpWritten : Nat
  creditsIssued : Nat
  deriving DecidableEq, Repr

/-- The flow at an initialized dispatcher: nothing written, nothing credited. -/
def CreditFlow.start (s : Sensors) : CreditFlow := { hal := s, wakeUpWritten := 0, creditsIssued := 0 }

/-- The acknowledgment-requiring events written without a matching credit. -/
def CreditFlow.uncredited (f : CreditFlow) : Nat := f.wakeUpWritten - f.creditsIssued

/-- One step of the flow.  `isWakeUp` tells which events require an acknowledgment. -/
def CreditFlow.step (isWakeUp : Event → Bool) (f : CreditFlow) : FlowStep → Option CreditFlow
  | FlowStep.post events =>
    match Sensors.postEventsRun f.hal events [] with
    | some run =>
      some
        { hal := run.final
          wakeUpWritten :=
            f.wakeUpWritten + (if run.writeOk then (events.filter isWakeUp).length else 0)
          creditsIssued := f.creditsIssued }
    | none => none
  | FlowStep.credit tokens =>
    match f.hal.mWakeLockQueue with
    | some wakeLockQueue =>
      let written := wakeLockQueue.write tokens
      some
        { hal := { f.hal with mWakeLockQueue := some written.2 }
          wakeUpWritten := f.wakeUpWritten
          creditsIssued := f.creditsIssued + (if written.1 then tokens.length else 0) }
    | none => none
  | FlowStep.consume count =>
    match f.hal.mEventQueue with
    | some eventQueue =>
      some
        { hal := { f.hal with mEventQueue := some (eventQueue.read count).2.2 }
          wakeUpWritten := f.wakeUpWritten
          creditsIssued := f.creditsIssued }
    | none => none

/-- A sequence of steps of the flow. -/
def CreditFlow.run (isWakeUp : Event → Bool) : CreditFlow → List FlowStep → Option CreditFlow
  | f, [] => some f
  | f, st :: rest =>
    match CreditFlow.step isWakeUp f st with
    | some f1 => CreditFlow.run isWakeUp f1 rest
    | none => none

/-- The capacity of the wake-lock queue (0 when there is no queue). -/
def Sensors.wakeLockCapacity (s : Sensors) : Nat :=
  match s.mWakeLockQueue with
  | some wakeLockQueue => wakeLockQueue.quantumCount
  | none => 0

/-- The capacity of the event queue (0 when there is no queue). -/
def Sensors.eventCapacity (s : Sensors) : Nat :=
  match s.mEventQueue with
  | some eventQueue => eventQueue.quantumCount
  | none => 0

/-- A dispatcher initialized through the interface: constructed, then `initialize` called
with an event queue of `eventCapacity` items carrying a flag word, a wake-lock queue of
`wakeLockCapacity` items, and a consumer handle. -/
def Sensors.started (eventCapacity wakeLockCapacity : Nat) : Sensors :=
  ( Sensors.initialize Sensors.new
    { valid := true, quantumCount := eventCapacity, evFlagWord := some 0 }
    { valid := true, quantumCount := wakeLockCapacity, evFlagWord := none }
    (some { id := 0 }) true).2

/-- An event of the sensor with handle 1, taken at time `t`. -/
def sampleEvent (t : Int) : Event :=
  { timestamp := t, sensorHandle := 1, sensorType := 1, u := [] }

/-! ## Auxiliary facts -/

theorem SensorMap.find_eq_none (m : List (Int × Sensor)) (key : Int)
    (h : key ∉ m.map Prod.fst) : SensorMap.find m key = none := by
  induction m with
  | nil => rfl
  | cons kv rest ih =>
    obtain ⟨k, w⟩ := kv
    simp only [List.map_cons, List.mem_cons, not_or] at h
    have hk : ¬ k = key := fun e => h.1 e.symm
    simp only [SensorMap.find, hk, if_false]
    exact ih h.2

theorem SensorMap.find_isSome (m : List (Int × Sensor)) (key : Int)
    (h : key ∈ m.map Prod.fst) : ∃ w, SensorMap.find m key = some w := by
  induction m with
  | nil => simp at h
  | cons kv rest ih =>
    obtain ⟨k, w⟩ := kv
    by_cases hk : k = key
    · exact ⟨w, by simp [SensorMap.find, hk]⟩
    · simp only [List.map_cons, List.mem_cons] at h
      rcases h with h | h
      · exact absurd h.symm hk
      · obtain ⟨w1, hw1⟩ := ih h
        exact ⟨w1, by simp [SensorMap.find, hk, hw1]⟩

/-- Storing under `key` leaves what is found under any other key unchanged. -/
theorem SensorMap.find_store_ne (m : List (Int × Sensor)) (key other : Int) (w : Sensor)
    (h : other ≠ key) : SensorMap.find (SensorMap.store m key w) other = SensorMap.find m other := by
  induction m with
  | nil => simp [SensorMap.store, SensorMap.find, Ne.symm h]
  | cons kv rest ih =>
    obtain ⟨k, v⟩ := kv
    by_cases hk : k = key
    · subst hk
      simp [SensorMap.store, SensorMap.find, Ne.symm h]
    · by_cases hlt : key < k
      · simp [SensorMap.store, SensorMap.find, hk, hlt, Ne.symm h]
      · by_cases hko : k = other
        · subst hko
          simp [SensorMap.store, SensorMap.find, hk, hlt]
        · simp [SensorMap.store, SensorMap.find, hk, hlt, hko, ih]

/-- Storing under `key` makes `find` return the stored worker. -/
theorem SensorMap.find_store_eq (m : List (Int × Sensor)) (key : Int) (w : Sensor) :
    SensorMap.find (SensorMap.store m key w) key = some w := by
  induction m with
  | nil => simp [SensorMap.store, SensorMap.find]
  | cons kv rest ih =>
    obtain ⟨k, v⟩ := kv
    by_cases hk : k = key
    · simp [SensorMap.store, SensorMap.find, hk]
    · by_cases hlt : key < k
      · simp [SensorMap.store, SensorMap.find, hk, hlt]
      · simp [SensorMap.store, SensorMap.find, hk, hlt, ih]

/-- The registry of a freshly constructed dispatcher has exactly the key 1. -/
theorem Sensors.new_keys : Sensors.new.mSensors.map Prod.fst = [1] := by decide

/-! ## Lookup by handle: `activate`, `batch`, `flush` -/

/-- C1: for every handle that is not a key of the registry, and every enable flag and
sampling period, `activate`, `batch` and `flush` return `BAD_VALUE` (which is not `OK`) and
return the dispatcher unchanged: the registry, every worker in it and the list of calls made
on workers are what they were, whatever the workers' implementation. -/
theorem Sensors.unknown_handle_rejected (impl : SensorImpl) (s : Sensors) (sensorHandle : Int)
    (enabled : Bool) (samplingPeriodNs maxReportLatencyNs : Int)
    (h : sensorHandle ∉ s.mSensors.map Prod.fst) :
    Sensors.activate impl s sensorHandle enabled = (Result.BAD_VALUE, s) ∧
    Sensors.batch impl s sensorHandle samplingPeriodNs maxReportLatencyNs
      = (Result.BAD_VALUE, s) ∧
    Sensors.flush impl s sensorHandle = (Result.BAD_VALUE, s) ∧
    Result.BAD_VALUE ≠ Result.OK := by
  have hf := SensorMap.find_eq_none s.mSensors sensorHandle h
  refine ⟨?_, ?_, ?_, by decide⟩
  · simp only [Sensors.activate, hf]
  · simp only [Sensors.batch, hf]
  · simp only [Sensors.flush, hf]

/-- Witness for C1: handle 2 on a freshly constructed dispatcher. -/
theorem Sensors.unknown_handle_rejected_witness :
    (2 : Int) ∉ Sensors.new.mSensors.map Prod.fst ∧
    Sensors.activate specSensorImpl Sensors.new 2 true = (Result.BAD_VALUE, Sensors.new) ∧
    Sensors.batch specSensorImpl Sensors.new 2 20000000 0 = (Result.BAD_VALUE, Sensors.new) ∧
    Sensors.flush specSensorImpl Sensors.new 2 = (Result.BAD_VALUE, Sensors.new) ∧
    Result.BAD_VALUE ≠ Result.OK :=
  ⟨by decide,
    Sensors.unknown_handle_rejected specSensorImpl Sensors.new 2 true 20000000 0 (by decide)⟩

/-- A period that fits `int32_t` reaches the worker unchanged. -/
theorem toInt32_of_fits (x : Int) (lo : -2147483648 ≤ x) (hi : x < 2147483648) :
    toInt32 x = x := by
  unfold toInt32
  omega

/-- For a registered handle, `activate` returns `OK`, calls `activate(enabled)` once on the
worker found under the handle (its state becomes what that call makes of it), and leaves
what is stored under every other handle as it was. -/
theorem Sensors.activate_registered (impl : SensorImpl) (s : Sensors) (sensorHandle : Int)
    (enabled : Bool) (w : Sensor) (hf : SensorMap.find s.mSensors sensorHandle = some w) :
    (Sensors.activate impl s sensorHandle enabled).1 = Result.OK ∧
    (Sensors.activate impl s sensorHandle enabled).2.sensorCalls
      = s.sensorCalls ++ [(sensorHandle, SensorCall.activate enabled)] ∧
    SensorMap.find (Sensors.activate impl s sensorHandle enabled).2.mSensors sensorHandle
      = some (impl.activate enabled w) ∧
    ∀ other, other ≠ sensorHandle →
      SensorMap.find (Sensors.activate impl s sensorHandle enabled).2.mSensors other
        = SensorMap.find s.mSensors other := by
  simp only [Sensors.activate, hf]
  exact ⟨trivial, trivial, SensorMap.find_store_eq _ _ _,
    fun other ho => SensorMap.find_store_ne _ _ _ _ ho⟩

/-- For a registered handle, `flush` returns what the worker's `flush()` returned, calls it
once on the worker found under the handle, and leaves what is stored under every other
handle as it was. -/
theorem Sensors.flush_registered (impl : SensorImpl) (s : Sensors) (sensorHandle : Int)
    (w : Sensor) (hf : SensorMap.find s.mSensors sensorHandle = some w) :
    (Sensors.flush impl s sensorHandle).1 = (impl.flush w).1 ∧
    (Sensors.flush impl s sensorHandle).2.sensorCalls
      = s.sensorCalls ++ [(sensorHandle, SensorCall.flush)] ∧
    SensorMap.find (Sensors.flush impl s sensorHandle).2.mSensors sensorHandle
      = some (impl.flush w).2 ∧
    ∀ other, other ≠ sensorHandle →
      SensorMap.find (Sensors.flush impl s sensorHandle).2.mSensors other
        = SensorMap.find s.mSensors other := by
  simp only [Sensors.flush, hf]
  exact ⟨trivial, trivial, SensorMap.find_store_eq _ _ _,
    fun other ho => SensorMap.find_store_ne _ _ _ _ ho⟩

/-- For a registered handle, `batch` returns `OK` and calls `batch` once on the worker found
under the handle, with the period converted to `int32_t`; what is stored under every other
handle stays as it was. -/
theorem Sensors.batch_registered (impl : SensorImpl) (s : Sensors) (sensorHandle : Int)
    (samplingPeriodNs maxReportLatencyNs : Int) (w : Sensor)
    (hf : SensorMap.find s.mSensors sensorHandle = some w) :
    (Sensors.batch impl s sensorHandle samplingPeriodNs maxReportLatencyNs).1 = Result.OK ∧
    (Sensors.batch impl s sensorHandle samplingPeriodNs maxReportLatencyNs).2.sensorCalls
      = s.sensorCalls ++ [(sensorHandle, SensorCall.batch (toInt32 samplingPeriodNs))] ∧
    SensorMap.find
        (Sensors.batch impl s sensorHandle samplingPeriodNs maxReportLatencyNs).2.mSensors
        sensorHandle
      = some (impl.batch (toInt32 samplingPeriodNs) w) ∧
    ∀ other, other ≠ sensorHandle →
      SensorMap.find
          (Sensors.batch impl s sensorHandle samplingPeriodNs maxReportLatencyNs).2.mSensors
          other
        = SensorMap.find s.mSensors other := by
  simp only [Sensors.batch, hf]
  exact ⟨trivial, trivial, SensorMap.find_store_eq _ _ _,
    fun other ho => SensorMap.find_store_ne _ _ _ _ ho⟩

/-- C2: on a freshly constructed dispatcher, `batch(1, 3000000000, 0)` (a period of three
seconds) returns `OK`, but the one call the worker under handle 1 receives is
`batch(-1294967296)`: the `int64_t` period is cut to the `int32_t` parameter of
`Sensor::batch`, so the argument is not forwarded as given. -/
theorem Sensors.batch_period_cut_to_int32 :
    Sensors.batch specSensorImpl Sensors.new 1 3000000000 0
      = (Result.OK,
          { Sensors.new with
            mSensors := [(1, { AccelSensor 1 with mSamplingPeriodNs := -1294967296 })]
            sensorCalls := [(1, SensorCall.batch (-1294967296))] }) := by
  decide

/-! ## `initialize` -/

/-- The result of `initialize` is `OK` exactly when the consumer handle is not null and the
event flag was created (the allocation succeeded and the event queue has a flag word);
otherwise it is `BAD_VALUE`.  The wake-lock descriptor, and the validity of either queue,
play no part. -/
theorem Sensors.initialize_result (s : Sensors) (evd wld : MQDescriptor)
    (cb : Option ISensorsCallback) (allocOk : Bool) :
    ( Sensors.initialize s evd wld cb allocOk).1
      = if cb.isSome && allocOk && evd.evFlagWord.isSome then Result.OK
        else Result.BAD_VALUE := by
  cases cb <;> cases allocOk <;> cases h : evd.evFlagWord <;>
    simp [ Sensors.initialize, Sensors.initializeRun, EventFlag.createEventFlag,
      MessageQueue.getEventFlagWord, MessageQueue.create, Sensors.deleteEventFlag, h]

/-- The result of `initialize` is `OK` exactly when, on return, the consumer handle, the event
queue, the wake-lock queue and the event flag are all held (not null). -/
theorem Sensors.initialize_ok_iff_held (s : Sensors) (evd wld : MQDescriptor)
    (cb : Option ISensorsCallback) (allocOk : Bool) :
    ( Sensors.initialize s evd wld cb allocOk).1 = Result.OK ↔
      (( Sensors.initialize s evd wld cb allocOk).2.mCallback.isSome = true ∧
       ( Sensors.initialize s evd wld cb allocOk).2.mEventQueue.isSome = true ∧
       ( Sensors.initialize s evd wld cb allocOk).2.mWakeLockQueue.isSome = true ∧
       ( Sensors.initialize s evd wld cb allocOk).2.mEventQueueFlag.isSome = true) := by
  cases cb <;> cases allocOk <;> cases h : evd.evFlagWord <;>
    simp [ Sensors.initialize, Sensors.initializeRun, EventFlag.createEventFlag,
      MessageQueue.getEventFlagWord, MessageQueue.create, Sensors.deleteEventFlag, h]

/-- C3: with a consumer handle, a valid event queue descriptor and a wake-lock descriptor
from which no valid queue can be built, `initialize` on a freshly constructed dispatcher
returns `OK`, and the dispatcher holds a wake-lock queue that is not valid: the failed
construction of the AcknowledgmentChannel does not yield `BAD_VALUE`. -/
theorem Sensors.initialize_ok_despite_invalid_wakeLockQueue :
    ( Sensors.initialize Sensors.new
        { valid := true, quantumCount := 8, evFlagWord := some 0 }
        { valid := false, quantumCount := 0, evFlagWord := none }
        (some { id := 0 }) true).1 = Result.OK ∧
    ( Sensors.initialize Sensors.new
        { valid := true, quantumCount := 8, evFlagWord := some 0 }
        { valid := false, quantumCount := 0, evFlagWord := none }
        (some { id := 0 }) true).2.mWakeLockQueue
      = some { isValid := false, quantumCount := 0, items := [], evFlagWord := none } := by
  decide

/-- C4, counterexample: `initialize` with a null consumer handle on a freshly constructed
dispatcher returns `BAD_VALUE`, and afterwards the dispatcher holds the event queue, the
wake-lock queue and the event flag built during the call. -/
theorem Sensors.initialize_failure_keeps_resources :
    ( Sensors.initialize Sensors.new
        { valid := true, quantumCount := 8, evFlagWord := some 0 }
        { valid := true, quantumCount := 4, evFlagWord := none }
        none true).1 = Result.BAD_VALUE ∧
    ( Sensors.initialize Sensors.new
        { valid := true, quantumCount := 8, evFlagWord := some 0 }
        { valid := true, quantumCount := 4, evFlagWord := none }
        none true).2.mEventQueue.isSome = true ∧
    ( Sensors.initialize Sensors.new
        { valid := true, quantumCount := 8, evFlagWord := some 0 }
        { valid := true, quantumCount := 4, evFlagWord := none }
        none true).2.mWakeLockQueue.isSome = true ∧
    ( Sensors.initialize Sensors.new
        { valid := true, quantumCount := 8, evFlagWord := some 0 }
        { valid := true, quantumCount := 4, evFlagWord := none }
        none true).2.mEventQueueFlag.isSome = true := by
  decide

/-- C4, amended: whenever `initialize` returns `BAD_VALUE`, for every prior dispatcher state
and every input, the dispatcher keeps what the call built: it holds the event queue and the
wake-lock queue constructed from the two descriptors and the consumer handle it was given,
and it holds an event flag exactly when the creation of the flag succeeded (so a null
consumer handle leaves all three resources held); the registry is untouched. -/
theorem Sensors.initialize_failure_retains (s : Sensors) (evd wld : MQDescriptor)
    (cb : Option ISensorsCallback) (allocOk : Bool)
    (hfail : ( Sensors.initialize s evd wld cb allocOk).1 = Result.BAD_VALUE) :
    ( Sensors.initialize s evd wld cb allocOk).2.mEventQueue = some (MessageQueue.create evd) ∧
    ( Sensors.initialize s evd wld cb allocOk).2.mWakeLockQueue
      = some (MessageQueue.create wld) ∧
    ( Sensors.initialize s evd wld cb allocOk).2.mCallback = cb ∧
    (( Sensors.initialize s evd wld cb allocOk).2.mEventQueueFlag.isSome
      = (allocOk && evd.evFlagWord.isSome)) ∧
    (cb = none ∨ ( Sensors.initialize s evd wld cb allocOk).2.mEventQueueFlag = none) ∧
    ( Sensors.initialize s evd wld cb allocOk).2.mSensors = s.mSensors := by
  rw [Sensors.initialize_result] at hfail
  cases cb <;> cases allocOk <;> cases h : evd.evFlagWord <;>
    simp_all [ Sensors.initialize, Sensors.initializeRun, EventFlag.createEventFlag,
      MessageQueue.getEventFlagWord, MessageQueue.create, Sensors.deleteEventFlag,
      EventFlag.deleteEventFlag]

/-- Witness for C4, amended: a null consumer handle on a freshly constructed dispatcher. -/
theorem Sensors.initialize_failure_retains_witness :
    ( Sensors.initialize Sensors.new
        { valid := true, quantumCount := 8, evFlagWord := some 0 }
        { valid := true, quantumCount := 4, evFlagWord := none }
        none true).1 = Result.BAD_VALUE ∧
    ( Sensors.initialize Sensors.new
        { valid := true, quantumCount := 8, evFlagWord := some 0 }
        { valid := true, quantumCount := 4, evFlagWord := none }
        none true).2.mEventQueueFlag.isSome = (true && (some 0 : Option Nat).isSome) :=
  ⟨by decide,
    (Sensors.initialize_failure_retains Sensors.new
      { valid := true, quantumCount := 8, evFlagWord := some 0 }
      { valid := true, quantumCount := 4, evFlagWord := none }
      none true (by decide)).2.2.2.1⟩

/-! ## The stubs -/

/-- The three direct-channel stubs give `INVALID_OPERATION` (to the caller or to the
callback), and all five stubs return the dispatcher unchanged. -/
theorem Sensors.stubs_keep_state (s : Sensors) (mode : Int) (event : Event) (mem : Nat)
    (sensorHandle channelHandle rate : Int) :
    (Sensors.setOperationMode s mode).2 = s ∧
    (Sensors.injectSensorData s event).2 = s ∧
    Sensors.registerDirectChannel s mem = ((Result.INVALID_OPERATION, 0), s) ∧
    Sensors.unregisterDirectChannel s channelHandle = (Result.INVALID_OPERATION, s) ∧
    Sensors.configDirectReport s sensorHandle channelHandle rate
      = ((Result.INVALID_OPERATION, 0), s) :=
  ⟨rfl, rfl, rfl, rfl, rfl⟩

/-- The value `Result{}` has underlying integer zero, and `OK` is the only enumerator that
has. -/
theorem Result.valueInit_zero :
    Result.valueInit.toInt32 = 0 ∧ ∀ r : Result, r.toInt32 = 0 → r = Result.OK := by
  refine ⟨rfl, ?_⟩
  intro r hr
  cases r
  · rfl
  · simp [Result.toInt32] at hr
  · simp [Result.toInt32] at hr

/-- C5: `setOperationMode` and `injectSensorData` return `Result{}`, which is `OK` and not
`INVALID_OPERATION`, for every dispatcher state and every argument (the state is returned
unchanged). -/
theorem Sensors.todo_stubs_return_ok (s : Sensors) (mode : Int) (event : Event) :
    Sensors.setOperationMode s mode = (Result.OK, s) ∧
    Sensors.injectSensorData s event = (Result.OK, s) ∧
    Result.OK ≠ Result.INVALID_OPERATION :=
  ⟨rfl, rfl, by decide⟩

/-! ## `postEvents` -/

/-- One undisturbed `postEvents` call on an initialized dispatcher, with a batch that fits
the free space of the event queue: the call is defined, appends the batch to the event
queue, drains the wake-lock queue, issues one wake signal, and leaves the dispatcher
initialized with the same queue capacities. -/
theorem Sensors.postEvents_of_fits (s : Sensors) (events : List Event)
    (hinit : s.initialized = true) (hfit : Sensors.fits s events = true) :
    ∃ s1, Sensors.postEvents s events [] = some s1 ∧
      s1.eventItems = s.eventItems ++ events ∧
      s1.initialized = true ∧
      s1.creditItems = [] ∧
      s1.wakes = s.wakes ++ [READ_AND_PROCESS] ∧
      s1.eventCapacity = s.eventCapacity := by
  obtain ⟨m, cb, eq, wq, fl, calls, live, wakes⟩ := s
  cases cb <;> cases eq <;> cases wq <;> cases fl <;>
    simp_all [Sensors.initialized, Sensors.fits, Sensors.postEvents, Sensors.postEventsRun,
      MessageQueue.write, MessageQueue.read, MessageQueue.availableToRead,
      MessageQueue.availableToWrite, Sensors.eventItems, Sensors.creditItems,
      Sensors.eventCapacity]

/-- A sequence of undisturbed `postEvents` calls, each batch fitting when its call runs: the
sequence is defined, and the event queue ends up holding its previous contents followed by
the batches, whole and in call order. -/
theorem Sensors.postEventsSeq_of_allFit (batches : List (List Event)) :
    ∀ s : Sensors, s.initialized = true → Sensors.allFit s batches = true →
      ∃ s2, Sensors.postEventsSeq s batches = some s2 ∧
        s2.eventItems = s.eventItems ++ batches.flatten := by
  induction batches with
  | nil =>
    intro s _ _
    exact ⟨s, rfl, by simp⟩
  | cons events rest ih =>
    intro s hinit hfit
    simp only [Sensors.allFit, Bool.and_eq_true] at hfit
    obtain ⟨s1, hpost, hitems, hinit1, -⟩ := Sensors.postEvents_of_fits s events hinit hfit.1
    have hrest : Sensors.allFit s1 rest = true := by
      have := hfit.2
      simp only [hpost] at this
      exact this
    obtain ⟨s2, hseq, hitems2⟩ := ih s1 hinit1 hrest
    refine ⟨s2, ?_, ?_⟩
    · simp only [Sensors.postEventsSeq, hpost, hseq]
    · rw [hitems2, hitems, List.flatten_cons, List.append_assoc]

/-- C6: on an initialized dispatcher, a `postEvents` call (one atomic step) whose batch does
not exceed the free space of the event queue leaves the queue holding its previous contents
followed by exactly the batch, in the batch's order; and after any sequence of such calls
the queue holds its previous contents followed by the concatenation of the whole batches in
call order. -/
theorem Sensors.postEvents_appends_in_order (s : Sensors) (batches : List (List Event))
    (hinit : s.initialized = true) (hfit : Sensors.allFit s batches = true) :
    (∀ events : List Event, Sensors.fits s events = true →
      ∃ s1, Sensors.postEvents s events [] = some s1 ∧
        s1.eventItems = s.eventItems ++ events) ∧
    ∃ s2, Sensors.postEventsSeq s batches = some s2 ∧
      s2.eventItems = s.eventItems ++ batches.flatten := by
  refine ⟨?_, Sensors.postEventsSeq_of_allFit batches s hinit hfit⟩
  intro events hev
  obtain ⟨s1, hpost, hitems, -⟩ := Sensors.postEvents_of_fits s events hinit hev
  exact ⟨s1, hpost, hitems⟩

/-- Witness for C6: a dispatcher initialized with an event queue of 8 items, then the batches
of two events and of one event. -/
theorem Sensors.postEvents_appends_in_order_witness :
    (Sensors.started 8 4).initialized = true ∧
    Sensors.allFit (Sensors.started 8 4)
      [[sampleEvent 10, sampleEvent 20], [sampleEvent 30]] = true ∧
    ((∀ events : List Event, Sensors.fits (Sensors.started 8 4) events = true →
      ∃ s1, Sensors.postEvents (Sensors.started 8 4) events [] = some s1 ∧
        s1.eventItems = (Sensors.started 8 4).eventItems ++ events) ∧
    ∃ s2, Sensors.postEventsSeq (Sensors.started 8 4)
        [[sampleEvent 10, sampleEvent 20], [sampleEvent 30]] = some s2 ∧
      s2.eventItems = (Sensors.started 8 4).eventItems
        ++ [[sampleEvent 10, sampleEvent 20], [sampleEvent 30]].flatten) :=
  ⟨by decide, by decide,
    Sensors.postEvents_appends_in_order (Sensors.started 8 4)
      [[sampleEvent 10, sampleEvent 20], [sampleEvent 30]] (by decide) (by decide)⟩

/-- C7: on a dispatcher initialized with an event queue of 2 items, a `postEvents` call with
a batch of 3 events: the write is rejected (`write` returns false, the queue stays empty),
and the call still issues one wake signal. -/
theorem Sensors.postEvents_wakes_after_failed_write :
    (Sensors.started 2 4).wakes = [] ∧
    (Sensors.postEventsRun (Sensors.started 2 4)
        [sampleEvent 10, sampleEvent 20, sampleEvent 30] []).map
      (fun run => (run.writeOk, run.final.eventItems, run.final.wakes))
      = some (false, [], [READ_AND_PROCESS]) := by
  decide

/-- An undisturbed `postEvents` call on an initialized dispatcher passes to `read` the length
of `tmp`, which is the number of credits readable, and leaves no credit readable; the event
queue after the call is what `write` makes of it, whatever the credits. -/
theorem Sensors.postEventsRun_undisturbed (s : Sensors) (events : List Event)
    (hinit : s.initialized = true) :
    ∃ run, Sensors.postEventsRun s events [] = some run ∧
      run.tmpSize = s.creditItems.length ∧
      run.readCount = run.tmpSize ∧
      run.final.creditItems = [] ∧
      run.final.mEventQueue = s.mEventQueue.map (fun q => (q.write events).2) := by
  obtain ⟨m, cb, eq, wq, fl, calls, live, wakes⟩ := s
  cases cb <;> cases eq <;> cases wq <;> cases fl <;>
    simp_all [Sensors.initialized, Sensors.postEventsRun,
      MessageQueue.write, MessageQueue.read, MessageQueue.availableToRead,
      MessageQueue.availableToWrite, Sensors.creditItems]

/-- Every `postEvents` call that is defined issues exactly one wake signal, with the mask
`READ_AND_PROCESS`, whether or not the write into the event queue succeeded. -/
theorem Sensors.postEventsRun_wakes_once (s : Sensors) (events : List Event)
    (arriving : List Nat) (run : PostEventsRun)
    (h : Sensors.postEventsRun s events arriving = some run) :
    run.final.wakes = s.wakes ++ [READ_AND_PROCESS] := by
  obtain ⟨m, cb, eq, wq, fl, calls, live, wakes⟩ := s
  cases eq <;> cases wq <;> cases fl <;>
    simp only [Sensors.postEventsRun, Option.some.injEq, reduceCtorEq] at h
  subst h
  rfl

/-- C10: on a dispatcher initialized with an empty wake-lock queue of 4 items, a `postEvents`
call during which the consumer writes one credit between the two evaluations of
`availableToRead()`: `tmp` has length 0, the count passed to `read` is 1, so the read goes
past the end of the buffer and the call is undefined. -/
theorem Sensors.postEvents_read_count_exceeds_buffer :
    (Sensors.postEventsRun (Sensors.started 8 4) [sampleEvent 10] [7]).map
      (fun run => (run.tmpSize, run.readCount)) = some (0, 1) ∧
    Sensors.postEvents (Sensors.started 8 4) [sampleEvent 10] [7] = none := by
  decide

/-! ## Acknowledgment credits -/

/-- One step of the flow from an initialized dispatcher is defined and leaves the
dispatcher initialized. -/
theorem CreditFlow.step_keeps_initialized (isWakeUp : Event → Bool) (f : CreditFlow)
    (st : FlowStep) (hinit : f.hal.initialized = true) :
    ∃ f1, CreditFlow.step isWakeUp f st = some f1 ∧ f1.hal.initialized = true := by
  obtain ⟨⟨m, cb, eq, wq, fl, calls, live, wakes⟩, w, c⟩ := f
  cases cb <;> cases eq <;> cases wq <;> cases fl <;>
    simp only [Sensors.initialized, Bool.and_eq_true] at hinit <;> try contradiction
  rename_i cbv eqv wqv flv
  cases st with
  | post events =>
    simp only [CreditFlow.step, Sensors.postEventsRun, Option.some.injEq, exists_eq_left']
    by_cases hw : events.length ≤ eqv.quantumCount - eqv.items.length <;>
      simp [Sensors.initialized, MessageQueue.write, MessageQueue.read,
        MessageQueue.availableToRead, MessageQueue.availableToWrite, hinit.1, hinit.2, hw]
  | credit tokens =>
    simp only [CreditFlow.step, Option.some.injEq, exists_eq_left']
    by_cases hw : tokens.length ≤ wqv.quantumCount - wqv.items.length <;>
      simp [Sensors.initialized, MessageQueue.write, MessageQueue.availableToWrite,
        hinit.1, hinit.2, hw]
  | consume count =>
    simp only [CreditFlow.step, Option.some.injEq, exists_eq_left']
    by_cases hr : count ≤ eqv.items.length <;>
      simp [Sensors.initialized, MessageQueue.read, MessageQueue.availableToRead,
        hinit.1, hinit.2, hr]

/-- Every sequence of steps of the flow from an initialized dispatcher is defined and ends in
an initialized dispatcher. -/
theorem CreditFlow.run_keeps_initialized (isWakeUp : Event → Bool) (steps : List FlowStep) :
    ∀ f : CreditFlow, f.hal.initialized = true →
      ∃ f2, CreditFlow.run isWakeUp f steps = some f2 ∧ f2.hal.initialized = true := by
  induction steps with
  | nil =>
    intro f hinit
    exact ⟨f, rfl, hinit⟩
  | cons st rest ih =>
    intro f hinit
    obtain ⟨f1, hstep, hinit1⟩ := CreditFlow.step_keeps_initialized isWakeUp f st hinit
    obtain ⟨f2, hrun, h2⟩ := ih f1 hinit1
    exact ⟨f2, by simp only [CreditFlow.run, hstep, hrun], h2⟩

/-- A `postEvents` step whose batch fits the free space of the event queue writes the batch
whatever the credits: the count of acknowledgment-requiring events written grows by the
number of such events in the batch. -/
theorem CreditFlow.post_of_fits (isWakeUp : Event → Bool) (f : CreditFlow)
    (events : List Event) (hinit : f.hal.initialized = true)
    (hfit : Sensors.fits f.hal events = true) :
    ∃ f1, CreditFlow.step isWakeUp f (FlowStep.post events) = some f1 ∧
      f1.wakeUpWritten = f.wakeUpWritten + (events.filter isWakeUp).length ∧
      f1.creditsIssued = f.creditsIssued ∧
      f1.hal.eventItems = f.hal.eventItems ++ events := by
  obtain ⟨⟨m, cb, eq, wq, fl, calls, live, wakes⟩, w, c⟩ := f
  cases cb <;> cases eq <;> cases wq <;> cases fl <;>
    simp_all [Sensors.initialized, Sensors.fits, CreditFlow.step, Sensors.postEventsRun,
      MessageQueue.write, MessageQueue.read, MessageQueue.availableToRead,
      MessageQueue.availableToWrite, Sensors.eventItems]

/-- C8, counterexample: the dispatcher is initialized with a wake-lock queue of capacity 4
(and an event queue of 8 items); every event requires an acknowledgment; no credit is ever
issued.  After a `postEvents` call with four events and a second call with a fifth, all five
are in the event queue: five events are written without a matching credit. -/
theorem CreditFlow.fifth_uncredited_event_written :
    (Sensors.started 8 4).wakeLockCapacity = 4 ∧
    (CreditFlow.run (fun _ => true) (CreditFlow.start (Sensors.started 8 4))
        [FlowStep.post [sampleEvent 10, sampleEvent 20, sampleEvent 30, sampleEvent 40],
         FlowStep.post [sampleEvent 50]]).map
      (fun f => (f.creditsIssued, f.uncredited, f.hal.eventItems.length)) = some (0, 5, 5) := by
  decide

/-- C8, amended: credits do not hold back the write.  In every state reachable from an
initialized dispatcher by any sequence of `postEvents` calls, consumer credit writes and
consumer reads of the event queue (every such sequence is defined), a `postEvents` call whose
batch fits the free space of the event queue writes every event of the batch, whatever the
credits issued or readable and whatever the capacity of the wake-lock queue: the count of
acknowledgment-requiring events written grows by the number of such events in the batch,
and the count of credits issued is unchanged. -/
theorem CreditFlow.post_writes_whatever_the_credits (isWakeUp : Event → Bool) (s : Sensors)
    (steps : List FlowStep) (hinit : s.initialized = true) :
    ∃ f, CreditFlow.run isWakeUp (CreditFlow.start s) steps = some f ∧
      ∀ events : List Event, Sensors.fits f.hal events = true →
        ∃ f1, CreditFlow.step isWakeUp f (FlowStep.post events) = some f1 ∧
          f1.wakeUpWritten = f.wakeUpWritten + (events.filter isWakeUp).length ∧
          f1.creditsIssued = f.creditsIssued ∧
          f1.hal.eventItems = f.hal.eventItems ++ events := by
  obtain ⟨f, hrun, hinitf⟩ :=
    CreditFlow.run_keeps_initialized isWakeUp steps (CreditFlow.start s) hinit
  exact ⟨f, hrun, fun events hfit => CreditFlow.post_of_fits isWakeUp f events hinitf hfit⟩

/-- Witness for C8, amended: the dispatcher initialized with an event queue of 8 items and a
wake-lock queue of 4; four events are posted, the consumer reads two of them and writes one
credit. -/
theorem CreditFlow.post_writes_whatever_the_credits_witness :
    (Sensors.started 8 4).initialized = true ∧
    ∃ f, CreditFlow.run (fun _ => true) (CreditFlow.start (Sensors.started 8 4))
        [FlowStep.post [sampleEvent 10, sampleEvent 20, sampleEvent 30, sampleEvent 40],
         FlowStep.consume 2, FlowStep.credit [1]] = some f ∧
      ∀ events : List Event, Sensors.fits f.hal events = true →
        ∃ f1, CreditFlow.step (fun _ => true) f (FlowStep.post events) = some f1 ∧
          f1.wakeUpWritten = f.wakeUpWritten + (events.filter (fun _ => true)).length ∧
          f1.creditsIssued = f.creditsIssued ∧
          f1.hal.eventItems = f.hal.eventItems ++ events :=
  ⟨by decide,
    CreditFlow.post_writes_whatever_the_credits (fun _ => true) (Sensors.started 8 4)
      [FlowStep.post [sampleEvent 10, sampleEvent 20, sampleEvent 30, sampleEvent 40],
       FlowStep.consume 2, FlowStep.credit [1]] (by decide)⟩

/-- One round of the flow on an initialized dispatcher with an empty event queue of capacity
at least 1: an acknowledgment-requiring event is posted and the consumer reads it.  The
event queue is empty again, one more such event has been written, no credit was issued. -/
theorem CreditFlow.round_without_credit (isWakeUp : Event → Bool) (e : Event)
    (he : isWakeUp e = true) (f : CreditFlow) (hinit : f.hal.initialized = true)
    (hempty : f.hal.eventItems = []) (hcap : 1 ≤ f.hal.eventCapacity) :
    ∃ f2, CreditFlow.run isWakeUp f [FlowStep.post [e], FlowStep.consume 1] = some f2 ∧
      f2.wakeUpWritten = f.wakeUpWritten + 1 ∧ f2.creditsIssued = f.creditsIssued ∧
      f2.hal.initialized = true ∧ f2.hal.eventItems = [] ∧ 1 ≤ f2.hal.eventCapacity := by
  obtain ⟨⟨m, cb, eq, wq, fl, calls, live, wakes⟩, w, c⟩ := f
  cases cb <;> cases eq <;> cases wq <;> cases fl <;>
    simp only [Sensors.initialized, Bool.and_eq_true] at hinit <;> try contradiction
  rename_i cbv eqv wqv flv
  simp only [Sensors.eventItems] at hempty
  simp only [Sensors.eventCapacity] at hcap
  simp [CreditFlow.run, CreditFlow.step, Sensors.postEventsRun, Sensors.initialized,
    MessageQueue.write, MessageQueue.read, MessageQueue.availableToRead,
    MessageQueue.availableToWrite, Sensors.eventItems, Sensors.eventCapacity, hinit.1,
    hinit.2, hempty, hcap, he]

/-- The acknowledgment-requiring events written without a matching credit are not bounded at
all: on an initialized dispatcher with an empty event queue of capacity at least 1, `n`
rounds of posting such an event and having the consumer read it, with no credit issued,
end with `n` more such events written and the credits issued unchanged. -/
theorem CreditFlow.written_without_credit_unbounded (isWakeUp : Event → Bool) (e : Event)
    (he : isWakeUp e = true) (n : Nat) :
    ∀ f : CreditFlow, f.hal.initialized = true → f.hal.eventItems = [] →
      1 ≤ f.hal.eventCapacity →
      ∃ f2, CreditFlow.run isWakeUp f
          (List.replicate n [FlowStep.post [e], FlowStep.consume 1]).flatten = some f2 ∧
        f2.wakeUpWritten = f.wakeUpWritten + n ∧ f2.creditsIssued = f.creditsIssued := by
  induction n with
  | zero =>
    intro f _ _ _
    exact ⟨f, rfl, rfl, rfl⟩
  | succ n ih =>
    intro f hinit hempty hcap
    obtain ⟨f1, hrun1, hw1, hc1, hinit1, hempty1, hcap1⟩ :=
      CreditFlow.round_without_credit isWakeUp e he f hinit hempty hcap
    obtain ⟨f2, hrun2, hw2, hc2⟩ := ih f1 hinit1 hempty1 hcap1
    refine ⟨f2, ?_, by omega, by omega⟩
    simp only [CreditFlow.run] at hrun1
    cases hs1 : CreditFlow.step isWakeUp f (FlowStep.post [e]) with
    | none => simp [hs1] at hrun1
    | some g1 =>
      simp only [hs1] at hrun1
      cases hs2 : CreditFlow.step isWakeUp g1 (FlowStep.consume 1) with
      | none => simp [hs2] at hrun1
      | some g2 =>
        simp only [hs2, Option.some.injEq] at hrun1
        subst hrun1
        simp only [List.replicate_succ, List.flatten_cons, List.cons_append, List.nil_append,
          CreditFlow.run, hs1, hs2]
        exact hrun2

/-! ## The event flag -/

/-- One `initialize` call from a dispatcher whose count of existing event flags is 1 when it
holds a flag and 0 when it holds none: the count is at most 1 after every statement of the
call, it is 0 once the previous flag has been deleted (before the new one is created), and
the relation between count and held flag is restored on return. -/
theorem Sensors.initializeRun_flag_count (s : Sensors) (a : InitializeArgs)
    (h : s.liveEventFlags = if s.mEventQueueFlag.isSome then 1 else 0) :
    (Sensors.initializeRun s a.eventQueueDescriptor a.wakeLockDescriptor a.sensorsCallback
        a.allocOk).afterCallback.liveEventFlags ≤ 1 ∧
    (Sensors.initializeRun s a.eventQueueDescriptor a.wakeLockDescriptor a.sensorsCallback
        a.allocOk).afterEventQueue.liveEventFlags ≤ 1 ∧
    (Sensors.initializeRun s a.eventQueueDescriptor a.wakeLockDescriptor a.sensorsCallback
        a.allocOk).afterDelete.liveEventFlags = 0 ∧
    (Sensors.initializeRun s a.eventQueueDescriptor a.wakeLockDescriptor a.sensorsCallback
        a.allocOk).afterDelete.mEventQueueFlag = none ∧
    (Sensors.initializeRun s a.eventQueueDescriptor a.wakeLockDescriptor a.sensorsCallback
        a.allocOk).afterCreate.liveEventFlags ≤ 1 ∧
    (Sensors.initializeRun s a.eventQueueDescriptor a.wakeLockDescriptor a.sensorsCallback
        a.allocOk).afterWakeLockQueue.liveEventFlags
      = (if (Sensors.initializeRun s a.eventQueueDescriptor a.wakeLockDescriptor
            a.sensorsCallback a.allocOk).afterWakeLockQueue.mEventQueueFlag.isSome
          then 1 else 0) := by
  obtain ⟨m, cb, eq, wq, fl, calls, live, wakes⟩ := s
  obtain ⟨evd, wld, cb1, allocOk⟩ := a
  cases fl <;> cases allocOk <;> cases hw : evd.evFlagWord <;>
    simp_all [Sensors.initializeRun, Sensors.deleteEventFlag, EventFlag.deleteEventFlag,
      EventFlag.createEventFlag, MessageQueue.getEventFlagWord, MessageQueue.create]

/-- Along every sequence of `initialize` calls from such a dispatcher the count of existing
event flags stays at most 1, and the relation between count and held flag holds at the end. -/
theorem Sensors.initializeSeq_flag_count (calls : List InitializeArgs) :
    ∀ s : Sensors, (s.liveEventFlags = if s.mEventQueueFlag.isSome then 1 else 0) →
      (∀ t ∈ Sensors.initializeSeqStates s calls, t.liveEventFlags ≤ 1) ∧
      ((Sensors.initializeSeq s calls).liveEventFlags
        = if (Sensors.initializeSeq s calls).mEventQueueFlag.isSome then 1 else 0) := by
  induction calls with
  | nil =>
    intro s h
    refine ⟨?_, h⟩
    intro t ht
    simp only [Sensors.initializeSeqStates, List.mem_singleton] at ht
    subst ht
    rw [h]
    split <;> omega
  | cons a rest ih =>
    intro s h
    have hrun := Sensors.initializeRun_flag_count s a h
    obtain ⟨hstates, hend⟩ := ih _ hrun.2.2.2.2.2
    refine ⟨?_, hend⟩
    intro t ht
    simp only [Sensors.initializeSeqStates, List.mem_cons] at ht
    rcases ht with ht | ht | ht | ht | ht | ht
    · subst ht
      rw [h]
      split <;> omega
    · subst ht
      exact hrun.1
    · subst ht
      exact hrun.2.1
    · subst ht
      rw [hrun.2.2.1]
      omega
    · subst ht
      exact hrun.2.2.2.2.1
    · exact hstates t ht

/-- C9: for every sequence of `initialize` calls on a constructed dispatcher, successful or
failing, at most one event flag exists at any point inside or between the calls; each call
has deleted the previously held flag (none is held, none exists) at the point where it
creates the new one; and after the destructor no event flag exists. -/
theorem Sensors.at_most_one_live_eventFlag (calls : List InitializeArgs) :
    (∀ t ∈ Sensors.initializeSeqStates Sensors.new calls, t.liveEventFlags ≤ 1) ∧
    (∀ a : InitializeArgs,
      (Sensors.initializeRun (Sensors.initializeSeq Sensors.new calls) a.eventQueueDescriptor
        a.wakeLockDescriptor a.sensorsCallback a.allocOk).afterDelete.liveEventFlags = 0 ∧
      (Sensors.initializeRun (Sensors.initializeSeq Sensors.new calls) a.eventQueueDescriptor
        a.wakeLockDescriptor a.sensorsCallback a.allocOk).afterDelete.mEventQueueFlag = none) ∧
    (Sensors.destructor (Sensors.initializeSeq Sensors.new calls)).liveEventFlags = 0 ∧
    (Sensors.destructor (Sensors.initializeSeq Sensors.new calls)).mEventQueueFlag = none := by
  obtain ⟨hstates, hend⟩ := Sensors.initializeSeq_flag_count calls Sensors.new (by decide)
  refine ⟨hstates, ?_, ?_, ?_⟩
  · intro a
    have hrun := Sensors.initializeRun_flag_count _ a hend
    exact ⟨hrun.2.2.1, hrun.2.2.2.1⟩
  · revert hend
    generalize Sensors.initializeSeq Sensors.new calls = s
    intro hend
    cases hfl : s.mEventQueueFlag <;>
      simp_all [Sensors.destructor, Sensors.deleteEventFlag, EventFlag.deleteEventFlag]
  · generalize Sensors.initializeSeq Sensors.new calls = s
    cases hfl : s.mEventQueueFlag <;>
      simp_all [Sensors.destructor, Sensors.deleteEventFlag, EventFlag.deleteEventFlag]
